import Mathlib

/-!
Verification of the wasm-python-sandbox-rs execution layer.

This file gives a shallow embedding, in Lean, of the pure logic of the
sandbox crate:

- src/error.rs          : the SandboxError taxonomy and the stderr
                          exception parser parse_python_exception
- src/sandbox/limits.rs : the SandboxLimiter resource-limiter state machine
- src/sandbox/config.rs : SandboxConfig and its builder
- src/sandbox/cache.rs  : the module cache get_or_compile protocol
- src/sandbox/executor.rs : the outcome classification of execute_sync
                          and the trap classifiers is_epoch_interrupt /
                          is_out_of_fuel

Rust strings are modelled as Lean List Char (the parser in the source
only performs byte operations on ASCII needles, for which byte indices
and character indices agree on valid UTF-8).  Rust u64 / usize become
Nat, i32 becomes Int, Duration becomes Nat (nanoseconds).  Fallible
operations (a Rust slice-index panic) are modelled with an explicit
outcome type.  Character-class helpers model the ASCII behaviour of the
corresponding Rust functions; every input appearing in a concrete
theorem below is ASCII, where the two agree exactly.
-/

namespace WasmSandbox

/-! ## String utilities (List Char models of the Rust str operations) -/

/-- Model of Rust char::is_whitespace restricted to the ASCII range. -/
def rustIsWhitespace (c : Char) : Bool :=
  c = ' ' || c = '\t' || c = '\n' || c = '\r' || c = '\x0b' || c = '\x0c'

/-- Drop leading whitespace. -/
def dropLeadingWs (cs : List Char) : List Char :=
  cs.dropWhile rustIsWhitespace

/-- Model of Rust str::trim: drop leading and trailing whitespace. -/
def trimChars (cs : List Char) : List Char :=
  ((cs.dropWhile rustIsWhitespace).reverse.dropWhile rustIsWhitespace).reverse

/-- Split a character list at every newline, keeping all segments
(including empty ones); an empty input yields one empty segment, as
String::split does in Rust. -/
def splitNl : List Char → List (List Char)
  | [] => [[]]
  | c :: tl =>
    match splitNl tl with
    | [] => [[]]
    | seg :: rest => if c = '\n' then [] :: seg :: rest else (c :: seg) :: rest

/-- Drop one trailing carriage return, as Rust str::lines does for the
segments that were terminated by a newline. -/
def stripTrailingCr (cs : List Char) : List Char :=
  match cs.reverse with
  | '\r' :: rest => rest.reverse
  | _ => cs

/-- Model of Rust str::lines: split at newlines, strip a carriage
return at the end of every newline-terminated segment, and do not
produce a final empty line for a trailing newline. -/
def rustLines (cs : List Char) : List (List Char) :=
  let parts := splitNl cs
  let body := parts.dropLast.map stripTrailingCr
  match parts.getLast? with
  | some [] => body
  | some lastSeg => body ++ [lastSeg]
  | none => body

/-- Index of the first occurrence of needle in hay starting the count
at idx, model of Rust str::find for a substring pattern. -/
def firstOccurAux (needle : List Char) : List Char → Nat → Option Nat
  | [], idx => if needle = [] then some idx else none
  | c :: tl, idx =>
    if needle.isPrefixOf (c :: tl) then some idx
    else firstOccurAux needle tl (idx + 1)

/-- Model of Rust str::find(substring): index of the first occurrence. -/
def firstOccur (needle hay : List Char) : Option Nat :=
  firstOccurAux needle hay 0

/-- Model of Rust str::contains(substring). -/
def containsSubstr (hay needle : List Char) : Bool :=
  (firstOccur needle hay).isSome

/-- Model of Rust char::to_ascii-style lowercasing used by
str::to_lowercase on ASCII input. -/
def toLowerChars (cs : List Char) : List Char :=
  cs.map Char.toLower

/-- Join lines with newlines, model of Rust slice::join for strings. -/
def joinNl : List (List Char) → List Char
  | [] => []
  | [x] => x
  | x :: xs => x ++ '\n' :: joinNl xs

/-- Model of the Rust inclusive slice l[start..=last]: it is
l[start..last+1], defined exactly when start is at most last+1 and
last+1 is at most the length; outside that range Rust panics, which we
model as none. -/
def sliceInclusive (l : List (List Char)) (start last : Nat) :
    Option (List (List Char)) :=
  if start ≤ last + 1 ∧ last + 1 ≤ l.length then
    some ((l.drop start).take (last + 1 - start))
  else
    none

/-- ASCII uppercase test, model of Rust char::is_ascii_uppercase. -/
def isAsciiUppercase (c : Char) : Bool :=
  'A' ≤ c && c ≤ 'Z'

/-! ## src/error.rs : the SandboxError taxonomy -/

/-- The payload of the PythonException variant: exception type, message
and optional traceback, as produced by parse_python_exception. -/
structure PyExc where
  exception_type : String
  message : String
  traceback : Option String
  deriving DecidableEq, Repr

/-- SandboxError from src/error.rs.  The anyhow causes carried by
RuntimeInit, ModuleLoad and Io are modelled as their display strings;
Duration is nanoseconds. -/
inductive SandboxError where
  | Timeout (elapsed : Nat)
  | MemoryLimitExceeded (detail : String)
  | RuntimeInit (cause : String)
  | ModuleLoad (cause : String)
  | ExecutionFailed (detail : String)
  | PythonException (exc : PyExc)
  | Io (cause : String)
  | Config (detail : String)
  | InterpreterNotFound (path : String)
  | OutOfFuel (consumed : Option Nat)
  deriving DecidableEq, Repr

/-- SandboxError::is_timeout. -/
def SandboxError.is_timeout : SandboxError → Bool
  | .Timeout _ => true
  | _ => false

/-- SandboxError::is_memory_limit. -/
def SandboxError.is_memory_limit : SandboxError → Bool
  | .MemoryLimitExceeded _ => true
  | _ => false

/-- SandboxError::is_python_exception. -/
def SandboxError.is_python_exception : SandboxError → Bool
  | .PythonException _ => true
  | _ => false

/-- SandboxError::is_out_of_fuel: the dedicated predicate for the
OutOfFuel variant. -/
def SandboxError.is_out_of_fuel : SandboxError → Bool
  | .OutOfFuel _ => true
  | _ => false

/-! ## src/error.rs : parse_python_exception -/

/-- The literal traceback marker from the source. -/
def tracebackMarker : List Char :=
  "Traceback (most recent call last):".data

/-- The exception-suffix patterns from looks_like_exception. -/
def exceptionSuffixes : List (List Char) :=
  ["Error".data, "Exception".data, "Warning".data]

/-- The standalone exception names from looks_like_exception. -/
def standaloneExceptions : List (List Char) :=
  ["KeyboardInterrupt".data, "SystemExit".data, "StopIteration".data,
    "GeneratorExit".data]

/-- The check applied to the character right after a matched pattern:
the pattern must be followed by end-of-line, a colon, a space or a
newline (the byte tests at src/error.rs lines 173-176 and 187-190). -/
def afterOk (cs : List Char) (j : Nat) : Bool :=
  match cs.drop j with
  | [] => true
  | c :: _ => c = ':' || c = ' ' || c = '\n'

/-- One suffix test of looks_like_exception: Rust line.find(suffix)
inspects only the FIRST occurrence of the suffix, then requires the
following character to pass afterOk. -/
def suffixMatchOk (cs sfx : List Char) : Bool :=
  match firstOccur sfx cs with
  | some idx => afterOk cs (idx + sfx.length)
  | none => false

/-- One standalone test of looks_like_exception: the line starts with
the name and the next character passes afterOk. -/
def standaloneMatchOk (cs exc : List Char) : Bool :=
  exc.isPrefixOf cs && afterOk cs exc.length

/-- looks_like_exception from src/error.rs: first character is ASCII
uppercase and either some suffix pattern or some standalone name
matches. -/
def looks_like_exception (cs : List Char) : Bool :=
  match cs with
  | [] => false
  | c :: _ =>
    if !isAsciiUppercase c then false
    else
      exceptionSuffixes.any (suffixMatchOk cs)
        || standaloneExceptions.any (standaloneMatchOk cs)

/-- The candidate filter of the scan loop in parse_python_exception:
not starting with a space, non-empty, not starting with "Traceback",
and looks_like_exception. -/
def isCandidateLine (cs : List Char) : Bool :=
  !([' '].isPrefixOf cs) && !cs.isEmpty && !("Traceback".data.isPrefixOf cs)
    && looks_like_exception cs

/-- Whether a line records the traceback start: it begins with the
literal marker. -/
def isMarkerLine (cs : List Char) : Bool :=
  tracebackMarker.isPrefixOf cs

/-- One step of the scan loop: a marker line overwrites the recorded
traceback start, a candidate line overwrites the recorded exception
line. -/
def scanStep (acc : Option Nat × Option (Nat × List Char))
    (il : Nat × List Char) : Option Nat × Option (Nat × List Char) :=
  (if isMarkerLine il.2 then some il.1 else acc.1,
   if isCandidateLine il.2 then some il else acc.2)

/-- The scan loop of parse_python_exception over the enumerated lines. -/
def scanLines (lines : List (List Char)) :
    Option Nat × Option (Nat × List Char) :=
  lines.enum.foldl scanStep (none, none)

/-- Split the winning exception line at its first colon: trimmed text
before is the type, trimmed text after is the message; with no colon
the whole trimmed line is the type and the message is empty. -/
def splitColonTrim (cs : List Char) : List Char × List Char :=
  match cs.findIdx? (fun c => c = ':') with
  | some i => (trimChars (cs.take i), trimChars (cs.drop (i + 1)))
  | none => (trimChars cs, [])

/-- The result of running parse_python_exception: either a normal
return value or a Rust panic (the out-of-range inclusive slice). -/
inductive ParseOutcome where
  | panicked
  | ok (res : Option PyExc)
  deriving DecidableEq, Repr

/-- parse_python_exception from src/error.rs on a character list.
The final traceback extraction indexes lines[start..=line_idx], which
panics when start exceeds line_idx + 1; that case is the panicked
outcome. -/
def parsePyExcChars (cs : List Char) : ParseOutcome :=
  if trimChars cs = [] then .ok none
  else
    let lines := rustLines cs
    if lines = [] then .ok none
    else
      match scanLines lines with
      | (_, none) => .ok none
      | (traceback_start, some (line_idx, exception_str)) =>
        let ty_msg := splitColonTrim exception_str
        match traceback_start with
        | none =>
          .ok (some ⟨String.mk ty_msg.1, String.mk ty_msg.2, none⟩)
        | some start =>
          match sliceInclusive lines start line_idx with
          | none => .panicked
          | some seg =>
            .ok (some ⟨String.mk ty_msg.1, String.mk ty_msg.2,
              some (String.mk (joinNl seg))⟩)

/-- parse_python_exception on a String. -/
def parse_python_exception (stderr : String) : ParseOutcome :=
  parsePyExcChars stderr.data

/-! ## Declarative reformulation of the parser

The scan loop keeps overwriting its two registers, so the recorded
traceback start is the last marker line and the winning exception line
is the last candidate line.  refParseChars states this directly with a
search from the end; the characterization lemma below proves the two
definitions equal on every input. -/

/-- The recorded traceback start, stated declaratively: the index of
the last marker line. -/
def refTracebackStart (lines : List (List Char)) : Option Nat :=
  ((lines.enum.reverse).find? fun il => isMarkerLine il.2).map (·.1)

/-- The winning exception line, stated declaratively: the last
candidate line together with its index. -/
def refWinner (lines : List (List Char)) : Option (Nat × List Char) :=
  (lines.enum.reverse).find? fun il => isCandidateLine il.2

/-- Declarative restatement of parse_python_exception: select the last
candidate line, split it at the first colon into trimmed type and
message, and attach the inclusive slice from the last marker line when
one was recorded (a panic when that slice is out of order). -/
def refParseChars (cs : List Char) : ParseOutcome :=
  if trimChars cs = [] then .ok none
  else
    let lines := rustLines cs
    if lines = [] then .ok none
    else
      match refWinner lines with
      | none => .ok none
      | some (line_idx, exception_str) =>
        let ty_msg := splitColonTrim exception_str
        match refTracebackStart lines with
        | none =>
          .ok (some ⟨String.mk ty_msg.1, String.mk ty_msg.2, none⟩)
        | some start =>
          match sliceInclusive lines start line_idx with
          | none => .panicked
          | some seg =>
            .ok (some ⟨String.mk ty_msg.1, String.mk ty_msg.2,
              some (String.mk (joinNl seg))⟩)

/-! ## The claimed candidate rule

The specification describes the candidate lines differently from the
source in two places: it excludes only the traceback marker line itself
(the source excludes every line starting with "Traceback"), and it
accepts a line when ANY occurrence of Error, Exception or Warning is
followed by end-of-line, colon or space (the source inspects only the
first occurrence of each suffix).  The definitions below follow the
claim wording so the two rules can be compared. -/

/-- Claimed suffix test: some occurrence of the suffix is immediately
followed by end-of-line, a colon or a space. -/
def occursFollowedOk (cs sfx : List Char) : Bool :=
  (List.range (cs.length + 1)).any fun i =>
    sfx.isPrefixOf (cs.drop i) && afterOk cs (i + sfx.length)

/-- Claimed looks-like-exception rule: ASCII uppercase first character,
and either some occurrence of a suffix pattern in position, or a
standalone exception name at the start. -/
def claimLooksLikeException (cs : List Char) : Bool :=
  match cs with
  | [] => false
  | c :: _ =>
    isAsciiUppercase c &&
      (exceptionSuffixes.any (occursFollowedOk cs)
        || standaloneExceptions.any (standaloneMatchOk cs))

/-- Claimed candidate filter: non-empty, not starting with whitespace,
not the traceback marker line itself, and claimLooksLikeException. -/
def claimIsCandidateLine (cs : List Char) : Bool :=
  !cs.isEmpty
    && !(match cs with | [] => false | c :: _ => rustIsWhitespace c)
    && !(cs = tracebackMarker)
    && claimLooksLikeException cs

/-- The scan step under the claimed candidate rule. -/
def claimScanStep (acc : Option Nat × Option (Nat × List Char))
    (il : Nat × List Char) : Option Nat × Option (Nat × List Char) :=
  (if isMarkerLine il.2 then some il.1 else acc.1,
   if claimIsCandidateLine il.2 then some il else acc.2)

/-- parse_exception as the claim describes it: identical to the source
except that the candidate lines are selected by the claimed rule. -/
def claimedParseChars (cs : List Char) : ParseOutcome :=
  if trimChars cs = [] then .ok none
  else
    let lines := rustLines cs
    if lines = [] then .ok none
    else
      match lines.enum.foldl claimScanStep (none, none) with
      | (_, none) => .ok none
      | (traceback_start, some (line_idx, exception_str)) =>
        let ty_msg := splitColonTrim exception_str
        match traceback_start with
        | none =>
          .ok (some ⟨String.mk ty_msg.1, String.mk ty_msg.2, none⟩)
        | some start =>
          match sliceInclusive lines start line_idx with
          | none => .panicked
          | some seg =>
            .ok (some ⟨String.mk ty_msg.1, String.mk ty_msg.2,
              some (String.mk (joinNl seg))⟩)

/-- parse_exception as the claim describes it, on a String. -/
def claimedParse (stderr : String) : ParseOutcome :=
  claimedParseChars stderr.data

/-! ## src/sandbox/limits.rs : SandboxLimiter -/

/-- The per-execution resource-limiter state. -/
structure SandboxLimiter where
  max_memory : Nat
  current_memory : Nat
  peak_memory : Nat
  max_table_elements : Nat
  limit_exceeded : Bool
  deriving DecidableEq, Repr

/-- SandboxLimiter::new: zero usage, the fixed table ceiling of 10000
elements, flag clear. -/
def SandboxLimiter.new (max_memory : Nat) : SandboxLimiter :=
  { max_memory := max_memory
    current_memory := 0
    peak_memory := 0
    max_table_elements := 10000
    limit_exceeded := false }

/-- ResourceLimiter::memory_growing for SandboxLimiter: deny and set
the flag when desired exceeds max_memory, otherwise record desired as
current and raise the peak.  The bool is the growth decision returned
to the engine; current and maximum are the unused parameters of the
Rust signature. -/
def SandboxLimiter.memory_growing (l : SandboxLimiter)
    (_current desired : Nat) (_maximum : Option Nat) :
    Bool × SandboxLimiter :=
  if desired > l.max_memory then
    (false, { l with limit_exceeded := true })
  else
    let l := { l with current_memory := desired }
    let l := if desired > l.peak_memory then { l with peak_memory := desired }
             else l
    (true, l)

/-- ResourceLimiter::table_growing for SandboxLimiter: deny and set the
flag when desired exceeds max_table_elements, otherwise allow without
recording anything. -/
def SandboxLimiter.table_growing (l : SandboxLimiter)
    (_current desired : Nat) (_maximum : Option Nat) :
    Bool × SandboxLimiter :=
  if desired > l.max_table_elements then
    (false, { l with limit_exceeded := true })
  else
    (true, l)

/-- One growth request issued by the engine during an execution. -/
inductive GrowthCall where
  | mem (current desired : Nat) (maximum : Option Nat)
  | table (current desired : Nat) (maximum : Option Nat)
  deriving DecidableEq, Repr

/-- The state after one growth request. -/
def applyGrowth (l : SandboxLimiter) : GrowthCall → SandboxLimiter
  | .mem c d m => (l.memory_growing c d m).2
  | .table c d m => (l.table_growing c d m).2

/-- The state after a sequence of growth requests. -/
def applyGrowths (l : SandboxLimiter) (calls : List GrowthCall) :
    SandboxLimiter :=
  calls.foldl applyGrowth l

/-! ## src/sandbox/config.rs : SandboxConfig and its builder -/

/-- SandboxConfig; durations are nanoseconds, memory is bytes. -/
structure SandboxConfig where
  timeout : Nat
  max_memory : Nat
  max_fuel : Option Nat
  interpreter_path : String
  epoch_tick_interval : Nat
  stdin : Option String
  env_vars : List (String × String)
  prelude : Option String
  deriving DecidableEq, Repr

/-- SandboxConfig::default: 30 s timeout, 64 MiB memory, no fuel limit,
the bundled interpreter path, 10 ms tick interval. -/
def SandboxConfig.defaultConfig : SandboxConfig :=
  { timeout := 30000000000
    max_memory := 67108864
    max_fuel := none
    interpreter_path := "assets/rustpython.wasm"
    epoch_tick_interval := 10000000
    stdin := none
    env_vars := []
    prelude := none }

/-- SandboxConfigBuilder: every scalar field optional, environment
variables accumulated in order. -/
structure SandboxConfigBuilder where
  timeout : Option Nat
  max_memory : Option Nat
  max_fuel : Option Nat
  interpreter_path : Option String
  epoch_tick_interval : Option Nat
  stdin : Option String
  env_vars : List (String × String)
  prelude : Option String
  deriving DecidableEq, Repr

/-- The derived Default for the builder: everything unset. -/
def SandboxConfigBuilder.defaultBuilder : SandboxConfigBuilder :=
  { timeout := none
    max_memory := none
    max_fuel := none
    interpreter_path := none
    epoch_tick_interval := none
    stdin := none
    env_vars := []
    prelude := none }

/-- One call on the builder, covering every setter of the source. -/
inductive BuilderOp where
  | timeout (d : Nat)
  | max_memory (bytes : Nat)
  | max_fuel (fuel : Nat)
  | interpreter_path (p : String)
  | epoch_tick_interval (d : Nat)
  | stdin (data : String)
  | env (key value : String)
  | envs (vars : List (String × String))
  | prelude (code : String)
  deriving DecidableEq, Repr

/-- Apply one builder call, exactly as the corresponding setter does. -/
def applyBuilderOp (b : SandboxConfigBuilder) : BuilderOp →
    SandboxConfigBuilder
  | .timeout d => { b with timeout := some d }
  | .max_memory bytes => { b with max_memory := some bytes }
  | .max_fuel fuel => { b with max_fuel := some fuel }
  | .interpreter_path p => { b with interpreter_path := some p }
  | .epoch_tick_interval d => { b with epoch_tick_interval := some d }
  | .stdin data => { b with stdin := some data }
  | .env key value => { b with env_vars := b.env_vars ++ [(key, value)] }
  | .envs vars => { b with env_vars := b.env_vars ++ vars }
  | .prelude code => { b with prelude := some code }

/-- Apply a sequence of builder calls. -/
def applyBuilderOps (b : SandboxConfigBuilder) (ops : List BuilderOp) :
    SandboxConfigBuilder :=
  ops.foldl applyBuilderOp b

/-- SandboxConfigBuilder::build: every unset field falls back to the
default configuration; no validation is performed. -/
def SandboxConfigBuilder.build (b : SandboxConfigBuilder) : SandboxConfig :=
  let dflt := SandboxConfig.defaultConfig
  { timeout := b.timeout.getD dflt.timeout
    max_memory := b.max_memory.getD dflt.max_memory
    max_fuel := b.max_fuel <|> dflt.max_fuel
    interpreter_path := b.interpreter_path.getD dflt.interpreter_path
    epoch_tick_interval := b.epoch_tick_interval.getD dflt.epoch_tick_interval
    stdin := b.stdin
    env_vars := b.env_vars
    prelude := b.prelude }

/-! ## src/sandbox/cache.rs : ModuleCache.get_or_compile

Compiled modules are identified by Nat tokens standing for the Arc
identity of the compiled artifact: two handles are reference-equal in
the source exactly when they carry the same token here.  The cache maps
canonical path strings to tokens; nextId is the supply of fresh
identities, allocated when a newly compiled module is inserted (a loser
of the double-check race discards its redundant compile, so the
discarded identity never escapes and need not be modelled).  The
filesystem is abstracted by the outcomes of canonicalize, read and
compile. -/

/-- The failure modes of std::fs::canonicalize as the source
distinguishes them. -/
inductive CanonErr where
  | notFound
  | ioErr (msg : String)
  deriving DecidableEq, Repr

/-- The filesystem and compiler environment of one cache. -/
structure CacheFs where
  canon : String → Except CanonErr String
  readOk : String → Bool
  compileOk : String → Bool

/-- The cache contents: association list from canonical path to module
identity, plus the fresh-identity supply. -/
structure CacheState where
  entries : List (String × Nat)
  nextId : Nat
  deriving DecidableEq, Repr

/-- HashMap::get on the entries. -/
def lookupEntry (es : List (String × Nat)) (k : String) : Option Nat :=
  (es.find? fun e => e.1 = k).map (·.2)

/-- The read phase of get_or_compile: canonicalize, read-lock lookup,
and on a miss read and compile the bytes outside any lock. -/
inductive ReadPhase where
  | failed (e : SandboxError)
  | hit (id : Nat)
  | missCompiled (cpath : String)
  deriving DecidableEq, Repr

/-- Canonicalize the path, try the read-locked lookup, and on a miss
read and compile, mapping each failure to the error the source
produces. -/
def readPhase (fs : CacheFs) (st : CacheState) (path : String) :
    ReadPhase :=
  match fs.canon path with
  | .error .notFound => .failed (.InterpreterNotFound path)
  | .error (.ioErr m) => .failed (.Io m)
  | .ok cpath =>
    match lookupEntry st.entries cpath with
    | some id => .hit id
    | none =>
      if fs.readOk cpath then
        if fs.compileOk cpath then .missCompiled cpath
        else .failed (.ModuleLoad "failed to compile module")
      else .failed (.Io "read failed")

/-- The write phase of get_or_compile: under the write lock, re-check
for a concurrent winner; reuse its entry and discard the redundant
compile on a hit, otherwise insert the freshly compiled module. -/
def writePhase (st : CacheState) (cpath : String) : Nat × CacheState :=
  match lookupEntry st.entries cpath with
  | some existing => (existing, st)
  | none =>
    (st.nextId, { entries := st.entries ++ [(cpath, st.nextId)],
                  nextId := st.nextId + 1 })

/-- get_or_compile run without interleaving: the read phase followed,
on a miss, by the write phase on the same state. -/
def getOrCompile (fs : CacheFs) (st : CacheState) (path : String) :
    Except SandboxError Nat × CacheState :=
  match readPhase fs st path with
  | .failed e => (.error e, st)
  | .hit id => (.ok id, st)
  | .missCompiled cpath =>
    let r := writePhase st cpath
    (.ok r.1, r.2)

/-- The cache state after a sequence of further get_or_compile calls
(the intervening calls of other tasks). -/
def runCalls (fs : CacheFs) (st : CacheState) (paths : List String) :
    CacheState :=
  paths.foldl (fun s p => (getOrCompile fs s p).2) st

/-! ## src/sandbox/executor.rs : outcome classification

The engine failure returned by the entry-point invocation is an anyhow
error: a chain of causes, where each cause may downcast to a
wasmtime::Trap or to a wasi I32Exit and has a display string.  The
wasmtime trap kinds relevant to the classifier are Interrupt and
OutOfFuel; every other kind is collapsed into other. -/

/-- The wasmtime::Trap kinds the classifier distinguishes. -/
inductive RTrap where
  | interrupt
  | outOfFuel
  | other
  deriving DecidableEq, Repr

/-- One cause in an anyhow error chain: its downcast results and its
display string. -/
structure ErrCause where
  trapVal : Option RTrap
  exitVal : Option Int
  msg : String
  deriving DecidableEq, Repr

/-- An anyhow error: the top-level cause followed by its sources. -/
structure AnyhowError where
  top : ErrCause
  rest : List ErrCause
  deriving DecidableEq, Repr

/-- anyhow::Error::chain: the error itself followed by its sources. -/
def AnyhowError.chain (e : AnyhowError) : List ErrCause :=
  e.top :: e.rest

/-- Whether one cause matches the interrupt scan of is_epoch_interrupt:
it downcasts to Trap::Interrupt, or its lowercased display string
contains "epoch" or "interrupt". -/
def causeIsInterrupt (c : ErrCause) : Bool :=
  c.trapVal = some RTrap.interrupt
    || containsSubstr (toLowerChars c.msg.data) "epoch".data
    || containsSubstr (toLowerChars c.msg.data) "interrupt".data

/-- is_epoch_interrupt from src/sandbox/executor.rs: when the error
itself downcasts to a Trap the answer is whether that trap is
Interrupt; otherwise the chain is scanned for a cause that downcasts to
Trap::Interrupt or whose display text mentions epoch or interrupt. -/
def is_epoch_interrupt (e : AnyhowError) : Bool :=
  match e.top.trapVal with
  | some t => t = RTrap.interrupt
  | none => e.chain.any causeIsInterrupt

/-- Whether one cause matches the fuel scan of is_out_of_fuel. -/
def causeIsOutOfFuel (c : ErrCause) : Bool :=
  c.trapVal = some RTrap.outOfFuel
    || containsSubstr (toLowerChars c.msg.data) "out of fuel".data
    || containsSubstr (toLowerChars c.msg.data) "fuel".data

/-- is_out_of_fuel from src/sandbox/executor.rs, same shape as
is_epoch_interrupt with Trap::OutOfFuel and the fuel text markers. -/
def is_out_of_fuel (e : AnyhowError) : Bool :=
  match e.top.trapVal with
  | some t => t = RTrap.outOfFuel
  | none => e.chain.any causeIsOutOfFuel

/-- ExecutionMetadata from src/sandbox/executor.rs. -/
structure ExecutionMetadata where
  duration : Nat
  peak_memory : Nat
  fuel_consumed : Option Nat
  used_cached_module : Bool
  deriving DecidableEq, Repr

/-- ExecutionResult from src/sandbox/executor.rs. -/
structure ExecutionResult where
  stdout : String
  stderr : String
  exit_code : Int
  metadata : ExecutionMetadata
  deriving DecidableEq, Repr

/-- ExecutionResult::is_success: exit code zero. -/
def ExecutionResult.is_success (r : ExecutionResult) : Bool :=
  r.exit_code = 0

/-- The Debug rendering of an Option of u64, as the format string of
the fuel message prints it. -/
def rustDebugOptionNat : Option Nat → String
  | none => "None"
  | some n => "Some(" ++ toString n ++ ")"

/-- The MemoryLimitExceeded message built on the execution path. -/
def memExceededExecMsg (current limit : Nat) : String :=
  "memory limit exceeded during execution (used " ++ toString current
    ++ " bytes, limit " ++ toString limit ++ " bytes)"

/-- The message the fuel-exhaustion branch formats into
ExecutionFailed. -/
def fuelExhaustedMsg (consumed : Option Nat) : String :=
  "execution ran out of fuel (consumed " ++ rustDebugOptionNat consumed
    ++ " instructions)"

/-- The classification of the entry-point invocation outcome, lines
416-458 of src/sandbox/executor.rs.  Arguments: the limiter state when
the call returns, the configured memory ceiling, the configured initial
fuel, the fuel remaining in the store (none when the store has no fuel
accounting, matching store.get_fuel() returning Err), the elapsed time,
and the call outcome (none for Ok).  The result is the exit code, or
the typed error of the first matching rule: limiter-exceeded flag, then
interrupt trap, then fuel exhaustion, then wasi exit code, then the
generic failure carrying the display text of the error. -/
def classifyCall (limiter : SandboxLimiter) (max_memory : Nat)
    (initial_fuel : Option Nat) (fuel_remaining : Option Nat)
    (elapsed : Nat) (callResult : Option AnyhowError) :
    Except SandboxError Int :=
  match callResult with
  | none => .ok 0
  | some e =>
    if limiter.limit_exceeded then
      .error (.MemoryLimitExceeded
        (memExceededExecMsg limiter.current_memory max_memory))
    else if e.top.trapVal = some RTrap.interrupt then
      .error (.Timeout elapsed)
    else if is_epoch_interrupt e then
      .error (.Timeout elapsed)
    else if is_out_of_fuel e then
      let fuel_consumed :=
        initial_fuel.map fun f => f - fuel_remaining.getD 0
      .error (.ExecutionFailed (fuelExhaustedMsg fuel_consumed))
    else
      match e.top.exitVal with
      | some code => .ok code
      | none => .error (.ExecutionFailed e.top.msg)

/-- The tail of execute_sync: classify the call outcome, and on an exit
code assemble the ExecutionResult, whose metadata peak_memory field is
read from limiter.current_memory() (line 462 of the source) and whose
fuel_consumed is initial fuel minus remaining (saturating). -/
def finishExec (limiter : SandboxLimiter) (max_memory : Nat)
    (initial_fuel : Option Nat) (fuel_remaining : Option Nat)
    (elapsed : Nat) (callResult : Option AnyhowError)
    (stdout stderr : String) (module_was_cached : Bool) :
    Except SandboxError ExecutionResult :=
  match classifyCall limiter max_memory initial_fuel fuel_remaining
      elapsed callResult with
  | .error e => .error e
  | .ok exit_code =>
    .ok { stdout := stdout
          stderr := stderr
          exit_code := exit_code
          metadata :=
            { duration := elapsed
              peak_memory := limiter.current_memory
              fuel_consumed :=
                initial_fuel.map fun f => f - fuel_remaining.getD 0
              used_cached_module := module_was_cached } }

/-! ## Characterization of the scan loop -/

/-- A left fold that overwrites its register at every match keeps the
last match: it equals a search from the end. -/
theorem foldl_lastMatch {α β : Type} (p : α → Bool) (f : α → β) :
    ∀ (xs : List α) (init : Option β),
      xs.foldl (fun acc x => if p x then some (f x) else acc) init
        = ((xs.reverse.find? p).map f).or init := by
  intro xs
  induction xs with
  | nil => intro init; simp
  | cons x tl ih =>
    intro init
    rw [List.foldl_cons, ih, List.reverse_cons, List.find?_append]
    cases h : tl.reverse.find? p with
    | some y => simp [Option.or]
    | none =>
      cases hp : p x <;> simp [List.find?_cons, hp, Option.or]

/-- A fold that updates the two components of a pair independently is
the pair of the two component folds. -/
theorem foldl_prod {α β γ : Type} (g1 : β → α → β) (g2 : γ → α → γ) :
    ∀ (xs : List α) (a : β) (b : γ),
      xs.foldl (fun acc x => (g1 acc.1 x, g2 acc.2 x)) (a, b)
        = (xs.foldl g1 a, xs.foldl g2 b) := by
  intro xs
  induction xs with
  | nil => intro a b; rfl
  | cons x tl ih => intro a b; simp only [List.foldl_cons]; exact ih _ _

/-- The scan loop computes exactly the last marker index and the last
candidate line. -/
theorem scanLines_eq (lines : List (List Char)) :
    scanLines lines = (refTracebackStart lines, refWinner lines) := by
  have hstep : scanStep = fun
      (acc : Option Nat × Option (Nat × List Char)) (il : Nat × List Char) =>
      ((fun tb (jl : Nat × List Char) =>
          if isMarkerLine jl.2 then some jl.1 else tb) acc.1 il,
       (fun ex (jl : Nat × List Char) =>
          if isCandidateLine jl.2 then some jl else ex) acc.2 il) := rfl
  unfold scanLines
  rw [hstep, foldl_prod
        (fun tb (jl : Nat × List Char) =>
          if isMarkerLine jl.2 then some jl.1 else tb)
        (fun ex (jl : Nat × List Char) =>
          if isCandidateLine jl.2 then some jl else ex)]
  have h1 := foldl_lastMatch (fun il : Nat × List Char => isMarkerLine il.2)
      (fun il => il.1) lines.enum none
  have h2 := foldl_lastMatch (fun il : Nat × List Char => isCandidateLine il.2)
      (fun il => il) lines.enum none
  simp only [Option.or_none] at h1 h2
  rw [h1, h2]
  unfold refTracebackStart refWinner
  simp

/-- parse_python_exception agrees with its declarative restatement on
every input. -/
theorem parsePyExcChars_eq_ref (cs : List Char) :
    parsePyExcChars cs = refParseChars cs := by
  unfold parsePyExcChars refParseChars
  simp only [scanLines_eq]
  cases h : refWinner (rustLines cs) with
  | none => rfl
  | some il => cases il; rfl

/-! ## Branch lemmas for the outcome classification -/

/-- Rule 1: the limiter-exceeded flag wins over everything else. -/
theorem classify_limit_exceeded (limiter : SandboxLimiter) (mm : Nat)
    (initF fuelRem : Option Nat) (elapsed : Nat) (e : AnyhowError)
    (h : limiter.limit_exceeded = true) :
    classifyCall limiter mm initF fuelRem elapsed (some e)
      = .error (.MemoryLimitExceeded
          (memExceededExecMsg limiter.current_memory mm)) := by
  unfold classifyCall
  simp [h]

/-- When the error is recognized as an interrupt, its top-level trap
downcast cannot contradict that recognition. -/
theorem interrupt_trap_of_is_epoch (e : AnyhowError)
    (h : is_epoch_interrupt e = false) :
    e.top.trapVal ≠ some RTrap.interrupt := by
  intro hc
  unfold is_epoch_interrupt at h
  rw [hc] at h
  simp at h

/-- Rule 2: with the flag clear, an interrupt-classified error yields
Timeout. -/
theorem classify_interrupt (limiter : SandboxLimiter) (mm : Nat)
    (initF fuelRem : Option Nat) (elapsed : Nat) (e : AnyhowError)
    (h1 : limiter.limit_exceeded = false)
    (h2 : is_epoch_interrupt e = true) :
    classifyCall limiter mm initF fuelRem elapsed (some e)
      = .error (.Timeout elapsed) := by
  unfold classifyCall
  by_cases htrap : e.top.trapVal = some RTrap.interrupt
  · simp [h1, htrap]
  · simp [h1, htrap, h2]

/-- Rule 3: with the flag clear and no interrupt, a fuel-classified
error yields ExecutionFailed carrying the fuel message with consumed
equal to initial fuel minus remaining. -/
theorem classify_fuel (limiter : SandboxLimiter) (mm : Nat)
    (initF fuelRem : Option Nat) (elapsed : Nat) (e : AnyhowError)
    (h1 : limiter.limit_exceeded = false)
    (h2 : is_epoch_interrupt e = false)
    (h3 : is_out_of_fuel e = true) :
    classifyCall limiter mm initF fuelRem elapsed (some e)
      = .error (.ExecutionFailed
          (fuelExhaustedMsg (initF.map fun f => f - fuelRem.getD 0))) := by
  unfold classifyCall
  simp [h1, interrupt_trap_of_is_epoch e h2, h2, h3]

/-- Rule 4: with no stronger rule matching, an I32Exit downcast becomes
the exit code of a successful result. -/
theorem classify_exit (limiter : SandboxLimiter) (mm : Nat)
    (initF fuelRem : Option Nat) (elapsed : Nat) (e : AnyhowError) (c : Int)
    (h1 : limiter.limit_exceeded = false)
    (h2 : is_epoch_interrupt e = false)
    (h3 : is_out_of_fuel e = false)
    (h4 : e.top.exitVal = some c) :
    classifyCall limiter mm initF fuelRem elapsed (some e) = .ok c := by
  unfold classifyCall
  simp [h1, interrupt_trap_of_is_epoch e h2, h2, h3, h4]

/-- Rule 5: anything else becomes ExecutionFailed with the raw display
text of the error. -/
theorem classify_generic (limiter : SandboxLimiter) (mm : Nat)
    (initF fuelRem : Option Nat) (elapsed : Nat) (e : AnyhowError)
    (h1 : limiter.limit_exceeded = false)
    (h2 : is_epoch_interrupt e = false)
    (h3 : is_out_of_fuel e = false)
    (h4 : e.top.exitVal = none) :
    classifyCall limiter mm initF fuelRem elapsed (some e)
      = .error (.ExecutionFailed e.top.msg) := by
  unfold classifyCall
  simp [h1, interrupt_trap_of_is_epoch e h2, h2, h3, h4]

/-! ## Lemmas on the limiter state machine -/

/-- memory_growing never clears the exceeded flag. -/
theorem memory_growing_keeps_flag (l : SandboxLimiter) (cur des : Nat)
    (m : Option Nat) (h : l.limit_exceeded = true) :
    ((l.memory_growing cur des m).2).limit_exceeded = true := by
  unfold SandboxLimiter.memory_growing
  split
  · rfl
  · dsimp only
    split <;> simpa using h

/-- table_growing never clears the exceeded flag. -/
theorem table_growing_keeps_flag (l : SandboxLimiter) (cur des : Nat)
    (m : Option Nat) (h : l.limit_exceeded = true) :
    ((l.table_growing cur des m).2).limit_exceeded = true := by
  unfold SandboxLimiter.table_growing
  split
  · rfl
  · simpa using h

/-- No single growth request clears the exceeded flag. -/
theorem applyGrowth_preserves (l : SandboxLimiter) (c : GrowthCall)
    (h : l.limit_exceeded = true) :
    (applyGrowth l c).limit_exceeded = true := by
  cases c with
  | mem cur des m => exact memory_growing_keeps_flag l cur des m h
  | table cur des m => exact table_growing_keeps_flag l cur des m h

/-- No sequence of growth requests clears the exceeded flag. -/
theorem applyGrowths_preserves :
    ∀ (calls : List GrowthCall) (l : SandboxLimiter),
      l.limit_exceeded = true →
      (applyGrowths l calls).limit_exceeded = true := by
  intro calls
  induction calls with
  | nil => intro l h; exact h
  | cons c tl ih =>
    intro l h
    exact ih _ (applyGrowth_preserves l c h)

/-! ## Lemmas on the module cache -/

/-- A binding survives appending entries. -/
theorem lookupEntry_append (es more : List (String × Nat)) (k : String)
    (id : Nat) (h : lookupEntry es k = some id) :
    lookupEntry (es ++ more) k = some id := by
  unfold lookupEntry at h ⊢
  rw [List.find?_append]
  cases hf : es.find? (fun e => e.1 = k) with
  | none => rw [hf] at h; simp at h
  | some p => rw [hf] at h; simpa [Option.or] using h

/-- A missing key is not among the stored keys. -/
theorem lookupEntry_none_not_mem (es : List (String × Nat)) (k : String)
    (h : lookupEntry es k = none) : k ∉ es.map (·.1) := by
  unfold lookupEntry at h
  cases hf : es.find? (fun e => e.1 = k) with
  | some p => rw [hf] at h; simp at h
  | none =>
    intro hk
    rw [List.find?_eq_none] at hf
    obtain ⟨⟨k1, v⟩, hmem, hfst⟩ := List.mem_map.mp hk
    have hp := hf _ hmem
    simp at hp hfst
    exact hp (by simpa using hfst)

/-- The write phase never disturbs an existing binding. -/
theorem writePhase_preserves (st : CacheState) (cpath k : String)
    (id : Nat) (h : lookupEntry st.entries k = some id) :
    lookupEntry ((writePhase st cpath).2).entries k = some id := by
  unfold writePhase
  cases hl : lookupEntry st.entries cpath with
  | some e => exact h
  | none => exact lookupEntry_append _ _ _ _ h

/-- A get_or_compile call never disturbs an existing binding. -/
theorem getOrCompile_preserves (fs : CacheFs) (st : CacheState)
    (p k : String) (id : Nat) (h : lookupEntry st.entries k = some id) :
    lookupEntry ((getOrCompile fs st p).2).entries k = some id := by
  unfold getOrCompile
  cases hr : readPhase fs st p with
  | failed e => exact h
  | hit i => exact h
  | missCompiled cpath => exact writePhase_preserves st cpath k id h

/-- A sequence of get_or_compile calls never disturbs an existing
binding. -/
theorem runCalls_preserves (fs : CacheFs) :
    ∀ (paths : List String) (st : CacheState) (k : String) (id : Nat),
      lookupEntry st.entries k = some id →
      lookupEntry (runCalls fs st paths).entries k = some id := by
  intro paths
  induction paths with
  | nil => intro st k id h; exact h
  | cons p tl ih =>
    intro st k id h
    exact ih _ _ _ (getOrCompile_preserves fs st p k id h)

/-- The write phase keeps the keys duplicate-free. -/
theorem writePhase_nodup (st : CacheState) (cpath : String)
    (h : (st.entries.map (·.1)).Nodup) :
    (((writePhase st cpath).2).entries.map (·.1)).Nodup := by
  unfold writePhase
  cases hl : lookupEntry st.entries cpath with
  | some e => exact h
  | none =>
    have hnm := lookupEntry_none_not_mem _ _ hl
    simp only [List.map_append, List.map_cons, List.map_nil]
    rw [List.nodup_append]
    refine ⟨h, List.nodup_singleton _, ?_⟩
    intro a ha hb
    simp at hb
    subst hb
    exact hnm ha

/-! ## Lemmas on the configuration builder -/

/-- The positivity of the optional timeout and memory fields is an
invariant of the builder when every explicit argument is positive. -/
theorem applyBuilderOps_positive :
    ∀ (ops : List BuilderOp) (b : SandboxConfigBuilder),
      (∀ n, BuilderOp.max_memory n ∈ ops → 0 < n) →
      (∀ d, BuilderOp.timeout d ∈ ops → 0 < d) →
      (∀ n, b.max_memory = some n → 0 < n) →
      (∀ d, b.timeout = some d → 0 < d) →
      (∀ n, (applyBuilderOps b ops).max_memory = some n → 0 < n)
        ∧ (∀ d, (applyBuilderOps b ops).timeout = some d → 0 < d) := by
  intro ops
  induction ops with
  | nil => intro b _ _ hbm hbt; exact ⟨hbm, hbt⟩
  | cons op tl ih =>
    intro b hm ht hbm hbt
    have hm1 : ∀ n, BuilderOp.max_memory n ∈ tl → 0 < n :=
      fun n hn => hm n (List.mem_cons_of_mem _ hn)
    have ht1 : ∀ d, BuilderOp.timeout d ∈ tl → 0 < d :=
      fun d hd => ht d (List.mem_cons_of_mem _ hd)
    refine ih (applyBuilderOp b op) hm1 ht1 ?_ ?_
    · intro n hn
      cases op <;> simp only [applyBuilderOp] at hn
      case max_memory k =>
        rw [Option.some.injEq] at hn
        exact hn ▸ hm k (List.mem_cons_self _ _)
      all_goals exact hbm n hn
    · intro d hd
      cases op <;> simp only [applyBuilderOp] at hd
      case timeout k =>
        rw [Option.some.injEq] at hd
        exact hd ▸ ht k (List.mem_cons_self _ _)
      all_goals exact hbt d hd

/-- Decidable equality for Except results, used to evaluate the
classification on concrete inputs. -/
instance {ε α : Type} [DecidableEq ε] [DecidableEq α] :
    DecidableEq (Except ε α) := fun x y =>
  match x, y with
  | .error a, .error b =>
    decidable_of_iff (a = b) ⟨fun h => by rw [h], fun h => by injection h⟩
  | .error _, .ok _ => isFalse fun hc => Except.noConfusion hc
  | .ok _, .error _ => isFalse fun hc => Except.noConfusion hc
  | .ok a, .ok b =>
    decidable_of_iff (a = b) ⟨fun h => by rw [h], fun h => by injection h⟩

/-! ## Claim C1 -/

/-- An engine failure whose top-level cause downcasts to
Trap::OutOfFuel, with a fresh limiter (flag clear) and a configured
budget of 100 instructions of which 0 remain. -/
def fuelTrapError : AnyhowError :=
  ⟨⟨some RTrap.outOfFuel, none, "wasm trap: all fuel consumed by WebAssembly"⟩,
    []⟩

/-- Claim C1: on an instruction-budget exhaustion (limiter clear, not
an interrupt, recognized by the fuel classifier) the classification
returns the string-carrying catch-all ExecutionFailed, NOT the
OutOfFuel variant: the dedicated predicate is_out_of_fuel rejects the
returned error.  The consumed count (initial budget minus remaining) is
only formatted into the message.  This contradicts the claim and the
crate taxonomy in src/error.rs, whose OutOfFuel variant and
is_out_of_fuel predicate exist for exactly this condition and which the
bundled resource_limits example matches on. -/
theorem c1_fuel_exhaustion_returns_string_catch_all :
    (SandboxLimiter.new 1048576).limit_exceeded = false
    ∧ is_epoch_interrupt fuelTrapError = false
    ∧ is_out_of_fuel fuelTrapError = true
    ∧ classifyCall (SandboxLimiter.new 1048576) 1048576 (some 100) (some 0) 5
        (some fuelTrapError)
        = .error (.ExecutionFailed
            "execution ran out of fuel (consumed Some(100) instructions)")
    ∧ SandboxError.is_out_of_fuel
        (.ExecutionFailed
          "execution ran out of fuel (consumed Some(100) instructions)")
        = false := by
  decide

/-! ## Claim C2 -/

/-- A limiter that accepted a growth to 100 bytes and then a growth to
50 bytes (two linear memories, or any accepted growth below the
previous one): the peak reading is 100, the current reading is 50. -/
def shrinkRunLimiter : SandboxLimiter :=
  ((((SandboxLimiter.new 1000).memory_growing 0 100 none).2).memory_growing
    100 50 none).2

/-- Claim C2: the metadata peak_memory field is read from the limiter's
current_memory, not from its peak_memory.  On shrinkRunLimiter the
limiter's peak reading is 100 but the assembled ExecutionResult reports
50, contradicting the claim, the field's own doc comment and the
limiter's unused peak_memory accessor. -/
theorem c2_metadata_peak_is_current_memory :
    shrinkRunLimiter.peak_memory = 100
    ∧ shrinkRunLimiter.current_memory = 50
    ∧ finishExec shrinkRunLimiter 1000 none none 7 none "" "" false
        = .ok ⟨"", "", 0, ⟨7, 50, none, false⟩⟩
    ∧ (50 : Nat) ≠ shrinkRunLimiter.peak_memory := by
  decide

/-! ## Claim C4 -/

/-- Claim C4 counterexample: the builder performs no validation, so an
explicit zero passed to max_memory is carried verbatim into the built
configuration, violating the claimed invariant max_memory > 0. -/
theorem c4_counterexample_zero_max_memory :
    (SandboxConfigBuilder.build
      (applyBuilderOps SandboxConfigBuilder.defaultBuilder
        [BuilderOp.max_memory 0])).max_memory = 0 := by
  decide

/-- Claim C4 as amended: for every sequence of builder calls in which
every explicit max_memory argument and every explicit timeout argument
is positive, the built configuration satisfies max_memory > 0 and
timeout > 0 (unset fields fall back to the positive defaults of 64 MiB
and 30 s); an explicit zero argument is carried through unvalidated. -/
theorem c4_builder_positive_when_args_positive :
    ∀ ops : List BuilderOp,
      (∀ n, BuilderOp.max_memory n ∈ ops → 0 < n) →
      (∀ d, BuilderOp.timeout d ∈ ops → 0 < d) →
      0 < (SandboxConfigBuilder.build
            (applyBuilderOps SandboxConfigBuilder.defaultBuilder ops)).max_memory
        ∧ 0 < (SandboxConfigBuilder.build
            (applyBuilderOps SandboxConfigBuilder.defaultBuilder ops)).timeout := by
  intro ops hm ht
  obtain ⟨h1, h2⟩ := applyBuilderOps_positive ops
    SandboxConfigBuilder.defaultBuilder hm ht
    (by intro n hn; simp [SandboxConfigBuilder.defaultBuilder] at hn)
    (by intro d hd; simp [SandboxConfigBuilder.defaultBuilder] at hd)
  constructor
  · unfold SandboxConfigBuilder.build
    cases hh : (applyBuilderOps SandboxConfigBuilder.defaultBuilder
        ops).max_memory with
    | none => simp [hh, SandboxConfig.defaultConfig]
    | some n => simpa [hh] using h1 n hh
  · unfold SandboxConfigBuilder.build
    cases hh : (applyBuilderOps SandboxConfigBuilder.defaultBuilder
        ops).timeout with
    | none => simp [hh, SandboxConfig.defaultConfig]
    | some d => simpa [hh] using h2 d hh

/-- Witness for the amended claim C4 at a concrete call sequence. -/
theorem c4_witness :
    0 < (SandboxConfigBuilder.build
          (applyBuilderOps SandboxConfigBuilder.defaultBuilder
            [BuilderOp.timeout 5000000000, BuilderOp.max_memory 33554432,
              BuilderOp.env "KEY" "VALUE"])).max_memory
      ∧ 0 < (SandboxConfigBuilder.build
          (applyBuilderOps SandboxConfigBuilder.defaultBuilder
            [BuilderOp.timeout 5000000000, BuilderOp.max_memory 33554432,
              BuilderOp.env "KEY" "VALUE"])).timeout :=
  c4_builder_positive_when_args_positive
    [BuilderOp.timeout 5000000000, BuilderOp.max_memory 33554432,
      BuilderOp.env "KEY" "VALUE"]
    (by intro n hn; simp at hn; omega)
    (by intro d hd; simp at hd; omega)

/-! ## Claim C9 -/

/-- Claim C9: a denied memory or table growth sets the exceeded flag,
and once set the flag never clears: limit_exceeded reads true after
every subsequent sequence of growth requests, including within-limit
ones. -/
theorem c9_exceeded_flag_is_sticky :
    ∀ (l : SandboxLimiter) (cur des : Nat) (m : Option Nat)
      (calls : List GrowthCall),
      ((l.memory_growing cur des m).1 = false →
        ((l.memory_growing cur des m).2).limit_exceeded = true)
      ∧ ((l.table_growing cur des m).1 = false →
        ((l.table_growing cur des m).2).limit_exceeded = true)
      ∧ (l.limit_exceeded = true →
        (applyGrowths l calls).limit_exceeded = true) := by
  intro l cur des m calls
  refine ⟨?_, ?_, applyGrowths_preserves calls l⟩
  · unfold SandboxLimiter.memory_growing
    split
    · intro _; rfl
    · dsimp only
      split <;> simp
  · unfold SandboxLimiter.table_growing
    split
    · intro _; rfl
    · simp

/-- Witness for claim C9: a denied growth on a fresh limiter sets the
flag, and the flag survives a later within-limit growth and a table
growth. -/
theorem c9_witness :
    (((SandboxLimiter.new 1000).memory_growing 0 2000 none).2).limit_exceeded
      = true
    ∧ (applyGrowths (((SandboxLimiter.new 1000).memory_growing 0 2000 none).2)
        [GrowthCall.mem 0 500 none, GrowthCall.table 0 10 none]).limit_exceeded
        = true := by
  constructor
  · exact (c9_exceeded_flag_is_sticky (SandboxLimiter.new 1000) 0 2000 none
      []).1 (by decide)
  · exact (c9_exceeded_flag_is_sticky
      (((SandboxLimiter.new 1000).memory_growing 0 2000 none).2) 0 0 none
      [GrowthCall.mem 0 500 none, GrowthCall.table 0 10 none]).2.2 (by decide)

/-! ## Claim C3 -/

/-- A second fuel-trap failure, used to show that rule 3 of the
classification does not produce the dedicated fuel error variant. -/
def fuelTrapError2 : AnyhowError :=
  ⟨⟨some RTrap.outOfFuel, none, "wasm trap: all fuel consumed"⟩, []⟩

/-- Claim C3 counterexample: at a concrete fuel-exhaustion failure
(flag clear, not an interrupt, fuel classifier true) the third rule
yields ExecutionFailed with a formatted message, which the dedicated
fuel predicate rejects — so the rule does not yield the taxonomy's fuel
error as the claim states. -/
theorem c3_counterexample_fuel_rule_output :
    (SandboxLimiter.new 4096).limit_exceeded = false
    ∧ is_epoch_interrupt fuelTrapError2 = false
    ∧ is_out_of_fuel fuelTrapError2 = true
    ∧ classifyCall (SandboxLimiter.new 4096) 4096 (some 500) (some 20) 9
        (some fuelTrapError2)
        = .error (.ExecutionFailed
            "execution ran out of fuel (consumed Some(480) instructions)")
    ∧ SandboxError.is_out_of_fuel
        (.ExecutionFailed
          "execution ran out of fuel (consumed Some(480) instructions)")
        = false := by
  decide

/-- Claim C3 as amended: the outcome classification applies its rules
in fixed precedence with first match winning — limiter exceeded-flag
set yields MemoryLimitExceeded; otherwise an interrupt-classified trap
yields Timeout; otherwise fuel exhaustion yields ExecutionFailed
carrying the fuel message with consumed equal to initial budget minus
remaining; otherwise a clean-exit signal yields its numeric exit code
as a success; otherwise ExecutionFailed with the raw error text — even
when one underlying failure satisfies several heuristics at once, since
every rule below states only the earlier conditions as hypotheses. -/
theorem c3_classification_precedence :
    ∀ (limiter : SandboxLimiter) (mm : Nat) (initF fuelRem : Option Nat)
      (elapsed : Nat) (e : AnyhowError) (c : Int),
      (limiter.limit_exceeded = true →
        classifyCall limiter mm initF fuelRem elapsed (some e)
          = .error (.MemoryLimitExceeded
              (memExceededExecMsg limiter.current_memory mm)))
      ∧ (limiter.limit_exceeded = false → is_epoch_interrupt e = true →
        classifyCall limiter mm initF fuelRem elapsed (some e)
          = .error (.Timeout elapsed))
      ∧ (limiter.limit_exceeded = false → is_epoch_interrupt e = false →
        is_out_of_fuel e = true →
        classifyCall limiter mm initF fuelRem elapsed (some e)
          = .error (.ExecutionFailed
              (fuelExhaustedMsg (initF.map fun f => f - fuelRem.getD 0))))
      ∧ (limiter.limit_exceeded = false → is_epoch_interrupt e = false →
        is_out_of_fuel e = false → e.top.exitVal = some c →
        classifyCall limiter mm initF fuelRem elapsed (some e) = .ok c)
      ∧ (limiter.limit_exceeded = false → is_epoch_interrupt e = false →
        is_out_of_fuel e = false → e.top.exitVal = none →
        classifyCall limiter mm initF fuelRem elapsed (some e)
          = .error (.ExecutionFailed e.top.msg)) := by
  intro limiter mm initF fuelRem elapsed e c
  exact ⟨classify_limit_exceeded limiter mm initF fuelRem elapsed e,
    classify_interrupt limiter mm initF fuelRem elapsed e,
    classify_fuel limiter mm initF fuelRem elapsed e,
    classify_exit limiter mm initF fuelRem elapsed e c,
    classify_generic limiter mm initF fuelRem elapsed e⟩

/-- An exceeded limiter used in the C3 witness: the denied growth set
the flag while leaving current at zero. -/
def exceededLimiter : SandboxLimiter :=
  (((SandboxLimiter.new 10).memory_growing 0 100 none)).2

/-- An error that is simultaneously an interrupt trap by downcast, a
fuel candidate by message text, and carries an exit code: used to show
the earlier rule winning. -/
def overlapInterruptError : AnyhowError :=
  ⟨⟨some RTrap.interrupt, none, "wasm trap: interrupt, all fuel consumed"⟩, []⟩

/-- An error that matches the fuel text scan and carries an exit code:
rule 3 beats rule 4. -/
def overlapFuelError : AnyhowError :=
  ⟨⟨none, some 3, "ran out of fuel"⟩, []⟩

/-- A pure exit-code error. -/
def exitError : AnyhowError :=
  ⟨⟨none, some 42, "exit status 42"⟩, []⟩

/-- A failure matching no heuristic at all. -/
def genericError : AnyhowError :=
  ⟨⟨none, none, "boom"⟩, []⟩

/-- Witness for the amended claim C3: each precedence rule applied at a
concrete overlapping input. -/
theorem c3_witness :
    classifyCall exceededLimiter 10 none none 3 (some overlapInterruptError)
      = .error (.MemoryLimitExceeded (memExceededExecMsg 0 10))
    ∧ classifyCall (SandboxLimiter.new 10) 10 (some 9) (some 2) 3
        (some overlapInterruptError) = .error (.Timeout 3)
    ∧ classifyCall (SandboxLimiter.new 10) 10 (some 9) (some 2) 3
        (some overlapFuelError)
        = .error (.ExecutionFailed
            "execution ran out of fuel (consumed Some(7) instructions)")
    ∧ classifyCall (SandboxLimiter.new 10) 10 none none 3 (some exitError)
        = .ok 42
    ∧ classifyCall (SandboxLimiter.new 10) 10 none none 3 (some genericError)
        = .error (.ExecutionFailed "boom") := by
  refine ⟨?_, ?_, ?_, ?_, ?_⟩
  · exact ((c3_classification_precedence exceededLimiter 10 none none 3
      overlapInterruptError 0).1 (by decide)).trans (by decide)
  · exact (c3_classification_precedence (SandboxLimiter.new 10) 10 (some 9)
      (some 2) 3 overlapInterruptError 0).2.1 (by decide) (by decide)
  · exact ((c3_classification_precedence (SandboxLimiter.new 10) 10 (some 9)
      (some 2) 3 overlapFuelError 0).2.2.1 (by decide) (by decide)
      (by decide)).trans (by decide)
  · exact (c3_classification_precedence (SandboxLimiter.new 10) 10 none none 3
      exitError 42).2.2.2.1 (by decide) (by decide) (by decide) (by decide)
  · exact (c3_classification_precedence (SandboxLimiter.new 10) 10 none none 3
      genericError 0).2.2.2.2 (by decide) (by decide) (by decide) (by decide)

/-! ## Claim C5 -/

/-- Claim C5: when the invocation failure carries a recognized wasi
exit code and no limiter, interrupt or fuel condition applies, the
orchestration returns Ok with that code as exit_code — a nonzero code
is never escalated to an error — and is_success holds exactly when the
exit code is zero. -/
theorem c5_exit_code_becomes_success_result :
    ∀ (limiter : SandboxLimiter) (mm : Nat) (initF fuelRem : Option Nat)
      (elapsed : Nat) (e : AnyhowError) (c : Int)
      (out err : String) (cached : Bool),
      limiter.limit_exceeded = false →
      is_epoch_interrupt e = false →
      is_out_of_fuel e = false →
      e.top.exitVal = some c →
      ∃ r, finishExec limiter mm initF fuelRem elapsed (some e) out err cached
            = .ok r
        ∧ r.exit_code = c
        ∧ (r.is_success = true ↔ c = 0) := by
  intro limiter mm initF fuelRem elapsed e c out err cached h1 h2 h3 h4
  refine ⟨⟨out, err, c, ⟨elapsed, limiter.current_memory,
      initF.map fun f => f - fuelRem.getD 0, cached⟩⟩, ?_, rfl, ?_⟩
  · unfold finishExec
    rw [classify_exit limiter mm initF fuelRem elapsed e c h1 h2 h3 h4]
  · unfold ExecutionResult.is_success
    simp

/-- An exit-code failure carrying code 3, as produced by interpreter
code that itself exits nonzero. -/
def exitError3 : AnyhowError :=
  ⟨⟨none, some 3, "exit status 3"⟩, []⟩

/-- Witness for claim C5: an exit-code failure with code 3 becomes a
successful result with exit_code 3 that is_success rejects. -/
theorem c5_witness :
    ∃ r, finishExec (SandboxLimiter.new 10) 10 none none 4 (some exitError3)
          "out" "err" true = .ok r
      ∧ r.exit_code = 3
      ∧ (r.is_success = true ↔ (3 : Int) = 0) :=
  c5_exit_code_becomes_success_result (SandboxLimiter.new 10) 10 none none 4
    exitError3 3 "out" "err" true (by decide) (by decide) (by decide)
    (by decide)

/-! ## Claim C6 -/

/-- Claim C6: a cached canonical identity is returned as a
reference-counted clone without compiling and without changing the
cache; the double-check write phase reuses a concurrent winner's entry
and discards the redundant compile; a returned identity is what the
cache then holds and it persists across any further get_or_compile
calls, so a second call with the same canonical path returns the
identical underlying module; and the cache keys stay duplicate-free,
giving at most one entry per canonical identity. -/
theorem c6_get_or_compile_identity :
    ∀ (fs : CacheFs) (st : CacheState) (path cpath : String) (id : Nat)
      (others : List String),
      (fs.canon path = .ok cpath → lookupEntry st.entries cpath = some id →
        getOrCompile fs st path = (.ok id, st))
      ∧ (lookupEntry st.entries cpath = some id →
        writePhase st cpath = (id, st))
      ∧ (lookupEntry st.entries cpath = some id →
        lookupEntry (runCalls fs st others).entries cpath = some id
          ∧ (fs.canon path = .ok cpath →
            getOrCompile fs (runCalls fs st others) path
              = (.ok id, runCalls fs st others)))
      ∧ ((st.entries.map (·.1)).Nodup →
        (((getOrCompile fs st path).2).entries.map (·.1)).Nodup) := by
  intro fs st path cpath id others
  have hhit : ∀ (s : CacheState), fs.canon path = .ok cpath →
      lookupEntry s.entries cpath = some id →
      getOrCompile fs s path = (.ok id, s) := by
    intro s hca hl
    unfold getOrCompile readPhase
    rw [hca]
    dsimp only
    rw [hl]
  refine ⟨hhit st, ?_, ?_, ?_⟩
  · intro hl
    unfold writePhase
    rw [hl]
  · intro hl
    have hpers := runCalls_preserves fs others st cpath id hl
    exact ⟨hpers, fun hca => hhit _ hca hpers⟩
  · intro hnd
    unfold getOrCompile
    cases hr : readPhase fs st path with
    | failed e => exact hnd
    | hit i => exact hnd
    | missCompiled cp => exact writePhase_nodup st cp hnd

/-- A concrete filesystem for the C6 witness: canonicalization prefixes
the path, reads and compiles always succeed. -/
def witnessFs : CacheFs :=
  ⟨fun p => .ok ("/canon/" ++ p), fun _ => true, fun _ => true⟩

/-- A concrete cache already holding module 7 for the canonical
identity of "m". -/
def witnessCache : CacheState :=
  ⟨[("/canon/m", 7)], 8⟩

/-- Witness for claim C6 at a concrete cache, path and interleaving. -/
theorem c6_witness :
    getOrCompile witnessFs witnessCache "m" = (.ok 7, witnessCache)
    ∧ writePhase witnessCache "/canon/m" = (7, witnessCache)
    ∧ lookupEntry (runCalls witnessFs witnessCache ["m", "other"]).entries
        "/canon/m" = some 7
    ∧ getOrCompile witnessFs (runCalls witnessFs witnessCache ["m", "other"])
        "m" = (.ok 7, runCalls witnessFs witnessCache ["m", "other"])
    ∧ (((getOrCompile witnessFs witnessCache "m").2).entries.map (·.1)).Nodup
    := by
  have h := c6_get_or_compile_identity witnessFs witnessCache "m" "/canon/m" 7
    ["m", "other"]
  have h3 := h.2.2.1 (by decide)
  exact ⟨h.1 rfl (by decide), h.2.1 (by decide), h3.1, h3.2 rfl,
    h.2.2.2 (by decide)⟩

/-! ## Claim C7 -/

/-- Claim C7 counterexample: the claimed candidate rule and the source
disagree.  A lone line "TracebackError: boom" qualifies under the
claimed rule (it is not the traceback marker line) but the source
rejects every line starting with "Traceback", so parse returns no
match; a lone line "ErrorsError: x" qualifies under the claimed rule
(its second occurrence of Error is followed by a colon) but the source
inspects only the first occurrence of each suffix and returns no
match. -/
theorem c7_counterexample_candidate_rule :
    claimedParse "TracebackError: boom"
      = .ok (some ⟨"TracebackError", "boom", none⟩)
    ∧ parse_python_exception "TracebackError: boom" = .ok none
    ∧ claimedParse "ErrorsError: x" = .ok (some ⟨"ErrorsError", "x", none⟩)
    ∧ parse_python_exception "ErrorsError: x" = .ok none := by
  decide

/-- Claim C7 as amended: parse_python_exception selects the LAST line
that qualifies under the source candidate rule — non-empty, not
starting with a space, not starting with "Traceback", ASCII-uppercase
first character, and either the FIRST occurrence of one of the
substrings Error, Exception, Warning is immediately followed by
end-of-line, colon or space, or the line starts with one of the four
standalone exception names so followed — then splits it at the first
colon into trimmed type and trimmed message (trimmed whole line as type
and empty message when no colon).  This is exactly the declarative
restatement refParseChars, proved equal on every input; the first
paragraph-8 vector holds. -/
theorem c7_parser_selects_last_candidate :
    (∀ stderr : String,
      parse_python_exception stderr = refParseChars stderr.data)
    ∧ parse_python_exception
        "ValueError: invalid literal for int() with base 10: \x27abc\x27"
        = .ok (some ⟨"ValueError",
            "invalid literal for int() with base 10: \x27abc\x27", none⟩) :=
  ⟨fun stderr => parsePyExcChars_eq_ref stderr.data, by decide⟩

/-! ## Claim C8 -/

/-- Claim C8: when the recorded traceback start precedes the winning
exception line the returned traceback is indeed the inclusive line
range rejoined with newlines (second conjunct, the paragraph-8
traceback vector), but the claim fails as stated: when the recorded
marker lies more than one line AFTER the winning exception line the
inclusive slice lines[start..=line_idx] is out of order and the
function panics instead of returning anything (first conjunct). -/
theorem c8_traceback_range_and_panic :
    parse_python_exception
      "ZeroDivisionError: division by zero\nx = 1/0\nTraceback (most recent call last):"
      = .panicked
    ∧ parse_python_exception
        "Traceback (most recent call last):\n  File \"<string>\", line 1, in <module>\nValueError: invalid value"
        = .ok (some ⟨"ValueError", "invalid value",
            some "Traceback (most recent call last):\n  File \"<string>\", line 1, in <module>\nValueError: invalid value"⟩)
    ∧ parse_python_exception "StopIteration" = .ok (some ⟨"StopIteration", "", none⟩)
    := by
  decide

/-! ## Claim C10 -/

/-- Claim C10: parse_python_exception is NOT total.  The example named
by the claim — the winning exception line directly followed by a later
marker line — survives, because the Rust inclusive slice
lines[1..=0] is the valid empty range (second conjunct, yielding an
empty traceback); but with one unrelated line between winner and
marker the slice lines[2..=0] starts past its end and the source
panics (first conjunct): the traceback slice is not always within
bounds. -/
theorem c10_parser_panics_on_late_marker :
    parse_python_exception "ValueError: x\nfoo\nTraceback (most recent call last):"
      = .panicked
    ∧ parse_python_exception "ValueError: x\nTraceback (most recent call last):"
        = .ok (some ⟨"ValueError", "x", some ""⟩) := by
  decide

end WasmSandbox
